import Mathlib

/-!
Verification development for the MediKeep browser front-end.

Each section embeds one part of the source shallowly in Lean:

* `SearchHistory` — `frontend/src/hooks/useSearchHistory` (search-history state).
* `RequestQueue` — `BaseApiService.queueRequest` / `processQueue` as a
  small-step model of the browser event loop.
* `BaseApi` — `BaseApiService.handleAuthError` / `handleResponse` and the
  HTTP verb methods of `BaseApiService`.
* `ApiSvc` — `ApiService.request`, its verb wrappers, and
  `ApiService.createMedication`.
* `SearchSvc` — `SearchService.formatSearchResults` / `searchWithPagination`.
* `SearchPage` — the `allFilteredResults` / `mergedResults` pipeline of the
  `SearchResults` page.

Machine integers of the source are modelled as `Int`/`Nat` (no overflow is
relevant anywhere in this code), JavaScript `undefined`/`null` as `Option` or
explicit constructors, and thrown exceptions as `Except` or explicit result
constructors.
-/

/-! ## JavaScript string helpers shared by several sections

All helpers recurse structurally over the character list of the string, so
every definition evaluates inside the kernel on concrete inputs. -/

/-- Drop leading whitespace characters. -/
def dropLeadingWs : List Char → List Char
  | [] => []
  | c :: cs => if c.isWhitespace then dropLeadingWs cs else c :: cs

/-- JavaScript `s.trim()`: strip whitespace from both ends. -/
def jsTrim (s : String) : String :=
  ⟨dropLeadingWs ((dropLeadingWs s.data.reverse).reverse)⟩

/-- Whether the first list is a prefix of the second. -/
def isPrefixList : List Char → List Char → Bool
  | [], _ => true
  | _ :: _, [] => false
  | p :: ps, c :: cs => p = c && isPrefixList ps cs

/-- Whether the second list occurs as a contiguous sublist of the first
(an empty pattern always occurs). -/
def containsSublist : List Char → List Char → Bool
  | _, [] => true
  | [], _ :: _ => false
  | c :: cs, p :: ps =>
    isPrefixList (p :: ps) (c :: cs) || containsSublist cs (p :: ps)

/-- JavaScript `s.includes(pat)`. -/
def jsIncludes (s pat : String) : Bool :=
  containsSublist s.data pat.data

/-- Remove the first occurrence of `pat` (JavaScript `replace` with a string
pattern touches only the first occurrence; an empty pattern removes
nothing when the replacement is empty). -/
def removeFirstOccur : List Char → List Char → List Char
  | s, [] => s
  | [], _ :: _ => []
  | c :: cs, p :: ps =>
    if isPrefixList (p :: ps) (c :: cs) then (c :: cs).drop (p :: ps).length
    else c :: removeFirstOccur cs (p :: ps)

/-- JavaScript `s.replace(pat, '')`. -/
def jsReplaceOnce (s pat : String) : String :=
  ⟨removeFirstOccur s.data pat.data⟩

/-- JavaScript `s.toLowerCase()`. -/
def jsToLower (s : String) : String :=
  ⟨s.data.map Char.toLower⟩

/-- Lexicographic strict order on character lists (code-unit order). -/
def charListLt : List Char → List Char → Bool
  | [], [] => false
  | [], _ :: _ => true
  | _ :: _, [] => false
  | a :: as, b :: bs =>
    if a < b then true else if b < a then false else charListLt as bs

/-- The non-strict lexicographic string order used by the default
JavaScript `Array.prototype.sort()`. -/
def jsStrLe (a b : String) : Bool :=
  !charListLt b.data a.data

/-- JavaScript truthiness of an optional string (`undefined` and `''` are
falsy). -/
def truthyStr : Option String → Bool
  | none => false
  | some s => s ≠ ""

/-- JavaScript `a || b` on optional strings. -/
def jsOrS (a b : Option String) : Option String :=
  if truthyStr a then a else b

namespace SearchHistory

/-! Embedding of `frontend/src/hooks/useSearchHistory` (source file
`useSearchHistory.ts`). The hook state is the list of entries; `addEntry`,
`removeEntry` and `clearHistory` are the state transformers passed to
`setEntries`, with `Date.now()` made an explicit argument. -/

/-- `interface SearchHistoryEntry`. -/
structure SearchHistoryEntry where
  query : String
  tags : List String
  matchMode : String
  timestamp : Int
deriving DecidableEq, Repr

/-- `const MAX_ENTRIES = 20`. -/
def MAX_ENTRIES : Nat := 20

/-- JavaScript default `Array.prototype.sort()` on strings: a stable sort in
lexicographic code-unit order. Any stable sort agrees with it on a
consistent comparator, so it is modelled with the stable
`List.insertionSort`. -/
def jsSortStrings (l : List String) : List String :=
  l.insertionSort (fun a b => jsStrLe a b = true)

/-- `buildDedupeKey(query, tags)`. -/
def buildDedupeKey (query : String) (tags : List String) : String :=
  jsTrim query ++ "::" ++ String.intercalate "," (jsSortStrings tags)

/-- JavaScript `array.map((entry, idx) => f(idx, entry))`, with the running
index made explicit. -/
def mapWithIdx {α β : Type} (f : Nat → α → β) : Nat → List α → List β
  | _, [] => []
  | i, a :: as => f i a :: mapWithIdx f (i + 1) as

/-- The in-place `updated.sort((a, b) => b.timestamp - a.timestamp)`:
stable, ordered so an element comes before another when the comparator is
non-positive, i.e. `b.timestamp ≤ a.timestamp`. -/
def sortEntriesByTimestampDesc (l : List SearchHistoryEntry) : List SearchHistoryEntry :=
  l.insertionSort (fun a b => b.timestamp ≤ a.timestamp)

/-- `addEntry(query, tags, matchMode)` applied to the previous entry list,
with `now = Date.now()` explicit. -/
def addEntry (query : String) (tags : List String) (matchMode : String) (now : Int)
    (prev : List SearchHistoryEntry) : List SearchHistoryEntry :=
  let trimmedQuery := jsTrim query
  let hasContent := trimmedQuery.length > 0 || tags.length > 0
  if !hasContent then prev
  else
    let newKey := buildDedupeKey trimmedQuery tags
    let existingIndex :=
      prev.findIdx? (fun entry => buildDedupeKey entry.query entry.tags == newKey)
    let updated : List SearchHistoryEntry :=
      match existingIndex with
      | some i =>
        mapWithIdx
          (fun idx entry =>
            if idx == i then { entry with matchMode := matchMode, timestamp := now }
            else entry)
          0 prev
      | none =>
        { query := trimmedQuery, tags := tags, matchMode := matchMode, timestamp := now }
          :: prev
    (sortEntriesByTimestampDesc updated).take MAX_ENTRIES

/-- `removeEntry(index)`: `prev.filter((_, idx) => idx !== index)`. -/
def removeEntry (index : Nat) (prev : List SearchHistoryEntry) : List SearchHistoryEntry :=
  prev.eraseIdx index

/-- `clearHistory()`. -/
def clearHistory : List SearchHistoryEntry := []

/-- The deduplication key of a stored entry, as recomputed by `addEntry`. -/
def entryKey (e : SearchHistoryEntry) : String := buildDedupeKey e.query e.tags

/-- Entries sorted by timestamp, newest first. -/
def sortedNewestFirst (l : List SearchHistoryEntry) : Prop :=
  l.Pairwise (fun a b => b.timestamp ≤ a.timestamp)

/-- At most one entry per deduplication key. -/
def dedupeKeysDistinct (l : List SearchHistoryEntry) : Prop :=
  (l.map entryKey).Nodup

/-- The invariant claimed for the hook state. -/
def historyInvariant (l : List SearchHistoryEntry) : Prop :=
  l.length ≤ MAX_ENTRIES ∧ sortedNewestFirst l ∧ dedupeKeysDistinct l

/-- One user-visible operation on the history state. -/
inductive HistoryOp
  | add (query : String) (tags : List String) (matchMode : String) (now : Int)
  | remove (index : Nat)
  | clear
deriving Repr

/-- Apply one operation to the state. -/
def applyOp : HistoryOp → List SearchHistoryEntry → List SearchHistoryEntry
  | .add q tags mm now, l => addEntry q tags mm now l
  | .remove i, l => removeEntry i l
  | .clear, _ => clearHistory

/-- Apply a sequence of operations, oldest first. -/
def applyOps (ops : List HistoryOp) (l : List SearchHistoryEntry) :
    List SearchHistoryEntry :=
  ops.foldl (fun s op => applyOp op s) l

end SearchHistory

namespace RequestQueue

/-! Embedding of `BaseApiService.queueRequest` / `processQueue` (source file
`part_000`, lines 69-110) as a small-step model of the browser event loop.

A control location records where the single `processQueue` activation is
suspended: `idle` (no activation), `loopCheck` (about to test the `while`
condition), `awaitingRequest i` (inside `await requestFn()` for request `i`),
and `awaitingDelay` (inside the 50 ms `setTimeout` delay of the `finally`
block). JavaScript runs the code between two `await` points atomically, so
steps of the model are exactly the source's atomic segments; external
`queueRequest` calls (and the 100 ms `setTimeout(processQueue)` rescheduling)
may interleave at the suspension points. The model lets an enqueue happen in
every state, which over-approximates the schedules the event loop allows.

`started` logs the requests in the order `processQueue` shifted and started
them; `arrived` logs them in the order `queueRequest` pushed them. -/

/-- `this.maxConcurrentRequests = 3`. -/
def maxConcurrentRequests : Nat := 3

/-- Where the `processQueue` activation is suspended. -/
inductive Ctrl
  | idle
  | loopCheck
  | awaitingRequest (reqId : Nat)
  | awaitingDelay
deriving DecidableEq, Repr

/-- The service fields touched by the queue logic, plus the two history logs. -/
structure ServiceState where
  requestQueue : List Nat
  activeRequests : Nat
  isProcessingQueue : Bool
  ctrl : Ctrl
  started : List Nat
  arrived : List Nat
deriving DecidableEq, Repr

/-- Constructor state: empty queue, no active requests, not processing. -/
def initialState : ServiceState :=
  { requestQueue := [], activeRequests := 0, isProcessingQueue := false,
    ctrl := .idle, started := [], arrived := [] }

/-- One atomic segment of the source, or one external `queueRequest` call. -/
inductive Step : ServiceState → ServiceState → Prop
  /-- `queueRequest` pushes the request and calls `processQueue`, whose guard
  (`isProcessingQueue || activeRequests >= maxConcurrentRequests`) makes it
  return at once. -/
  | enqueueGuarded (i : Nat) (s : ServiceState)
      (hguard : s.isProcessingQueue = true ∨ s.activeRequests ≥ maxConcurrentRequests) :
      Step s { s with requestQueue := s.requestQueue ++ [i],
                      arrived := s.arrived ++ [i] }
  /-- `queueRequest` pushes the request and `processQueue` passes its guard:
  it sets `isProcessingQueue = true` and reaches the `while` condition. -/
  | enqueueEnter (i : Nat) (s : ServiceState)
      (hp : s.isProcessingQueue = false)
      (ha : s.activeRequests < maxConcurrentRequests) :
      Step s { s with requestQueue := s.requestQueue ++ [i],
                      arrived := s.arrived ++ [i],
                      isProcessingQueue := true, ctrl := .loopCheck }
  /-- A scheduled `setTimeout(() => this.processQueue(), 100)` fires while no
  activation is running and the guard passes. -/
  | timerEnter (s : ServiceState)
      (hc : s.ctrl = .idle)
      (hp : s.isProcessingQueue = false)
      (ha : s.activeRequests < maxConcurrentRequests) :
      Step s { s with isProcessingQueue := true, ctrl := .loopCheck }
  /-- The `while` condition holds: `shift()` the head request, increment
  `activeRequests`, and start `await requestFn()`. -/
  | dequeueStart (s : ServiceState) (i : Nat) (rest : List Nat)
      (hc : s.ctrl = .loopCheck)
      (hq : s.requestQueue = i :: rest)
      (ha : s.activeRequests < maxConcurrentRequests) :
      Step s { s with requestQueue := rest,
                      activeRequests := s.activeRequests + 1,
                      started := s.started ++ [i],
                      ctrl := .awaitingRequest i }
  /-- The `while` condition fails: clear `isProcessingQueue` and return
  (possibly scheduling the 100 ms timer). -/
  | loopExit (s : ServiceState)
      (hc : s.ctrl = .loopCheck)
      (hdone : s.requestQueue = [] ∨ s.activeRequests ≥ maxConcurrentRequests) :
      Step s { s with isProcessingQueue := false, ctrl := .idle }
  /-- `await requestFn()` settles (resolve or reject); the `finally` block
  decrements `activeRequests` and starts the 50 ms delay. -/
  | requestSettles (s : ServiceState) (i : Nat)
      (hc : s.ctrl = .awaitingRequest i) :
      Step s { s with activeRequests := s.activeRequests - 1,
                      ctrl := .awaitingDelay }
  /-- The 50 ms flood-prevention delay elapses; control returns to the `while`
  condition. -/
  | delayDone (s : ServiceState)
      (hc : s.ctrl = .awaitingDelay) :
      Step s { s with ctrl := .loopCheck }

/-- States reachable from the constructor state. -/
inductive Reachable : ServiceState → Prop
  | init : Reachable initialState
  | step {s t : ServiceState} : Reachable s → Step s t → Reachable t

/-- How many requests are in flight at each control location. -/
def ctrlActive : Ctrl → Nat
  | .awaitingRequest _ => 1
  | _ => 0

/-- The inductive invariant of the queue machine. -/
def QueueInv (s : ServiceState) : Prop :=
  s.activeRequests = ctrlActive s.ctrl ∧
  (s.isProcessingQueue = true ↔ s.ctrl ≠ .idle) ∧
  s.arrived = s.started ++ s.requestQueue

end RequestQueue

namespace BaseApi

/-! Embedding of `BaseApiService.handleAuthError` and
`BaseApiService.handleResponse` (source file `part_000`, lines 112-284).

The token kept by `secureStorage` is abstracted to what the code observes of
it: absent, present but failing `JSON.parse(atob(token.split('.')[1]))`, or
decodable with an `exp` claim. `Date.now() / 1000` is the explicit
`currentTime` argument. A `fetch` response is abstracted to the fields the
two handlers read: `ok`, `status`, `url` and the `Retry-After` header
(`headers.get` yields `null` when the header is absent). -/

/-- The stored token as observed by `handleAuthError`. -/
inductive StoredToken
  | absent
  | undecodable
  | decoded (exp : Int)
deriving DecidableEq, Repr

/-- The response fields read by `handleAuthError` / `handleResponse`. -/
structure Response where
  ok : Bool
  status : Nat
  url : String
  retryAfterHeader : Option String
deriving DecidableEq, Repr

/-- `BaseApiService.handleAuthError(response)`. The returned Boolean is `true`
exactly on the paths that set `window.location.href = '/login'` (each
redirect is immediately followed by `return true`); the logging calls are
omitted. The `/admin/` branch and the non-admin branch differ only in
logging, but both are kept to mirror the source. -/
def handleAuthError (response : Response) (token : StoredToken) (currentTime : Int) :
    Bool :=
  if response.status = 401 then
    if jsIncludes response.url "/admin/" then
      -- admin branch: try { no token → redirect; decode; expired → redirect;
      -- valid → return false } catch { redirect }
      match token with
      | .absent => true
      | .undecodable => true
      | .decoded exp => if exp < currentTime then true else false
    else
      -- non-admin branch, same checks
      match token with
      | .absent => true
      | .undecodable => true
      | .decoded exp => if exp < currentTime then true else false
  else if response.status = 429 then
    false
  else
    false

/-- `const maxRetries = 2` in `handleResponse`. -/
def maxRetries : Nat := 2

/-- The rate-limit error message built for a 429 response. -/
def rateLimitMessage (n : String) : String :=
  "Rate limit exceeded. Please wait " ++ n ++ " seconds before trying again."

/-- `response.headers.get('Retry-After') || '60'`: `null` (absent header) and
the empty string are both falsy, so both yield `'60'`. -/
def retryAfterValue (r : Response) : String :=
  match r.retryAfterHeader with
  | none => "60"
  | some v => if v = "" then "60" else v

/-- What one `handleResponse` call does with a response. -/
inductive HandleResult
  /-- `throw new Error('Authentication failed - redirecting to login')`. -/
  | authRedirectError
  /-- `return this.get(url, errorMessage)` with the base URL and base path
  stripped from the response URL. -/
  | retriedGet (endpoint : String)
  /-- `throw new Error('Rate limit exceeded. ...')`. -/
  | rateLimitError (message : String)
  /-- `throw new Error(extractErrorMessage(error, response.status))`. -/
  | extractedError
  /-- 204 → `return null`. -/
  | noContent
  /-- `return response.json()`. -/
  | jsonBody
deriving DecidableEq, Repr

/-- `BaseApiService.handleResponse(response, errorMessage, retryCount)`,
reduced to which of its exit paths is taken. -/
def handleResponse (r : Response) (token : StoredToken) (currentTime : Int)
    (baseURL basePath : String) (retryCount : Nat) : HandleResult :=
  if r.ok = false then
    if handleAuthError r token currentTime then
      .authRedirectError
    else if r.status = 401 && jsIncludes r.url "/admin/" && decide (retryCount < maxRetries)
    then
      .retriedGet (jsReplaceOnce r.url (baseURL ++ basePath))
    else if r.status = 429 then
      .rateLimitError (rateLimitMessage (retryAfterValue r))
    else
      .extractedError
  else if r.status = 204 then
    .noContent
  else
    .jsonBody

/-- The retry path calls `this.get(url, errorMessage)`, and `get` hands the
new response to `handleResponse` with the *default* `retryCount = 0` — the
current retry count is not threaded through. Iterating this: each element of
`rs` is the response received by the next attempt; `none` means the chain is
still retrying after consuming all of `rs`. -/
def retryChain (token : StoredToken) (currentTime : Int) (baseURL basePath : String) :
    List Response → Option HandleResult
  | [] => none
  | r :: rs =>
    match handleResponse r token currentTime baseURL basePath 0 with
    | .retriedGet _ => retryChain token currentTime baseURL basePath rs
    | res => some res

/-- The claim's reading of the Retry-After fallback: the header value whenever
the header is present, `'60'` only when it is absent. -/
def claimedRetryAfter (h : Option String) : String := h.getD "60"

/-! The HTTP verb methods of `BaseApiService` (source file `part_000`, lines
287-399). Only `get` destructures an options object (`{ params, signal,
...rest }`); `post`, `put`, `patch`, `delete` and `deleteWithBody` are
declared as `(endpoint, data, errorMessage)` / `(endpoint, errorMessage)` —
they have no options parameter, so a JavaScript caller passing an extra
options argument has it silently ignored. A `fetch` invocation is abstracted
to its URL, method, whether a body is serialized, and the `signal` field of
its init object (absent = `none`). -/

/-- An abort signal, identified by an opaque id. -/
abbrev Signal := Nat

/-- One `fetch(url, init)` invocation as issued by the service layer. -/
structure FetchCall where
  url : String
  method : String
  signal : Option Signal
  hasBody : Bool
deriving DecidableEq, Repr

/-- The options object accepted by `BaseApiService.get` (and by the
`ApiService` verb methods): query parameters and an optional abort signal. -/
structure RequestOptions where
  params : List (String × String) := []
  signal : Option Signal := none
deriving DecidableEq, Repr

/-- `?k1=v1&k2=v2...` (percent-encoding is irrelevant here and omitted). -/
def buildQueryString (params : List (String × String)) : String :=
  String.intercalate "&" (params.map (fun kv => kv.1 ++ "=" ++ kv.2))

/-- `BaseApiService.get(endpoint, options)`: builds the URL (appending query
parameters when present) and fetches with the auth headers and the
destructured `signal`. -/
def get (baseURL basePath endpoint : String) (options : RequestOptions) : FetchCall :=
  let url := baseURL ++ basePath ++ endpoint
  let url := if options.params.length > 0 then url ++ "?" ++ buildQueryString options.params
             else url
  { url := url, method := "GET", signal := options.signal, hasBody := false }

/-- `BaseApiService.post(endpoint, data, errorMessage)`: the fetch init holds
`method`, `headers` and `body` only — no `signal` field. -/
def post (baseURL basePath endpoint : String) : FetchCall :=
  { url := baseURL ++ basePath ++ endpoint, method := "POST", signal := none,
    hasBody := true }

/-- `BaseApiService.put(endpoint, data, errorMessage)`: no `signal` field. -/
def put (baseURL basePath endpoint : String) : FetchCall :=
  { url := baseURL ++ basePath ++ endpoint, method := "PUT", signal := none,
    hasBody := true }

/-- `BaseApiService.patch(endpoint, data, errorMessage)`: no `signal` field. -/
def patch (baseURL basePath endpoint : String) : FetchCall :=
  { url := baseURL ++ basePath ++ endpoint, method := "PATCH", signal := none,
    hasBody := true }

/-- `BaseApiService.delete(endpoint, errorMessage)`: no `signal` field. -/
def deleteReq (baseURL basePath endpoint : String) : FetchCall :=
  { url := baseURL ++ basePath ++ endpoint, method := "DELETE", signal := none,
    hasBody := false }

/-- The five HTTP verbs of the service layer. -/
inductive Verb
  | GET
  | POST
  | PUT
  | PATCH
  | DELETE
deriving DecidableEq, Repr

/-- A JavaScript caller invoking the verb method of `BaseApiService` for `v`
with an options object as last argument. Only `get` declares an options
parameter; for the other four verbs the extra argument does not bind to
anything and is dropped. -/
def callVerb (v : Verb) (baseURL basePath endpoint : String)
    (options : RequestOptions) : FetchCall :=
  match v with
  | .GET => get baseURL basePath endpoint options
  | .POST => post baseURL basePath endpoint
  | .PUT => put baseURL basePath endpoint
  | .PATCH => patch baseURL basePath endpoint
  | .DELETE => deleteReq baseURL basePath endpoint

end BaseApi

namespace ApiSvc

/-! Embedding of `ApiService` (source file `frontend/src/services/api/index.js`):
the core `request` method (lines 170-262), its five verb wrappers, and
`createMedication` (lines 1515-1531). -/

/-- `ApiService.request(method, url, data, options)`: appends query
parameters, builds the fetch init with `method`, `signal` and headers, and
tries `baseURL + url` first (the fallback attempt reuses the same `config`
object, so it carries the same signal; the first attempted call is
returned). -/
def request (method : String) (baseURL url : String) (hasData : Bool)
    (options : BaseApi.RequestOptions) : BaseApi.FetchCall :=
  let url := if options.params.length > 0 then url ++ "?" ++ BaseApi.buildQueryString options.params
             else url
  { url := baseURL ++ url, method := method, signal := options.signal,
    hasBody := hasData }

/-- `ApiService.get/post/put/patch/delete(endpoint, data?, options)`: each
forwards `options` unchanged to `request`. -/
def callVerb (v : BaseApi.Verb) (baseURL endpoint : String)
    (options : BaseApi.RequestOptions) : BaseApi.FetchCall :=
  match v with
  | .GET => request "GET" baseURL endpoint false options
  | .POST => request "POST" baseURL endpoint true options
  | .PUT => request "PUT" baseURL endpoint true options
  | .PATCH => request "PATCH" baseURL endpoint true options
  | .DELETE => request "DELETE" baseURL endpoint false options

/-- A JavaScript value, as far as `createMedication` distinguishes them. -/
inductive JSValue
  | vNull
  | vUndefined
  | vNaN
  | vStr (s : String)
  | vNum (n : Int)
  | vBool (b : Bool)
deriving DecidableEq, Repr

/-- JavaScript truthiness. (`NaN`, `null`, `undefined`, `''`, `0` and `false`
are the falsy values of this domain.) -/
def truthy : JSValue → Bool
  | .vNull => false
  | .vUndefined => false
  | .vNaN => false
  | .vStr s => s ≠ ""
  | .vNum n => n ≠ 0
  | .vBool b => b

/-- The filter of `createMedication`'s clean-up loop:
`value !== '' && value !== null && value !== undefined`. -/
def keepInCleanPayload (v : JSValue) : Bool :=
  v ≠ .vStr "" && v ≠ .vNull && v ≠ .vUndefined

/-- The clean-up loop: `Object.keys(medicationData).forEach(...)` keeps every
key whose value passes `keepInCleanPayload`, in key order. An object is
modelled as an association list with distinct keys. -/
def cleanMedicationPayload (medicationData : List (String × JSValue)) :
    List (String × JSValue) :=
  medicationData.filter (fun kv => keepInCleanPayload kv.2)

/-- Reading the property `key` of an object: an absent property reads as
`undefined`. -/
def lookupProp (obj : List (String × JSValue)) (key : String) : JSValue :=
  match obj.lookup key with
  | some v => v
  | none => .vUndefined

/-- `ApiService.createMedication(medicationData, signal)`: builds the clean
payload, throws `'Medication name is required'` when
`!cleanPayload.medication_name`, and otherwise posts the clean payload
(`.error` is the throw before any network request; `.ok p` is
`this.post('/medications/', p, { signal })`). -/
def createMedication (medicationData : List (String × JSValue)) :
    Except String (List (String × JSValue)) :=
  let cleanPayload := cleanMedicationPayload medicationData
  if !truthy (lookupProp cleanPayload "medication_name") then
    .error "Medication name is required"
  else
    .ok cleanPayload

end ApiSvc

namespace SearchSvc

/-! Embedding of `frontend/src/services/searchService.jsx`:
`formatSearchResults`, `formatResultItem`, `formatVitalSigns` and
`searchWithPagination`. Backend items are association-free records holding
exactly the fields the formatter reads; string dates stay strings here. -/

/-- JavaScript template-literal interpolation of a possibly-undefined string
(`undefined` renders as the text `"undefined"`). -/
def jsInterp (x : Option String) : String := x.getD "undefined"

/-- JavaScript truthiness of an optional number (`undefined` and `0` falsy;
fractional values are modelled by scaling, which preserves truthiness). -/
def truthyNum : Option Int → Bool
  | none => false
  | some n => n ≠ 0

/-- One item of a backend search response, restricted to the fields
`formatResultItem` reads. -/
structure RawItem where
  itemType : Option String
  id : Nat
  tags : List String
  medication_name : Option String := none
  dosage : Option String := none
  status : Option String := none
  notes : Option String := none
  start_date : Option String := none
  created_at : Option String := none
  condition_name : Option String := none
  diagnosis : Option String := none
  diagnosed_date : Option String := none
  test_name : Option String := none
  result : Option String := none
  test_date : Option String := none
  name : Option String := none
  description : Option String := none
  procedure_date : Option String := none
  vaccine_name : Option String := none
  dose_number : Option Int := none
  administered_date : Option String := none
  treatment_name : Option String := none
  treatment_type : Option String := none
  encounter_date : Option String := none
  visit_type : Option String := none
  reason : Option String := none
  chief_complaint : Option String := none
  allergen : Option String := none
  severity : Option String := none
  reaction : Option String := none
  identified_date : Option String := none
  recorded_date : Option String := none
  systolic_bp : Option Int := none
  diastolic_bp : Option Int := none
  heart_rate : Option Int := none
  temperature : Option Int := none
  weight : Option Int := none
deriving DecidableEq, Repr

/-- The formatted result produced by `formatResultItem`. -/
structure FormattedItem where
  itemType : Option String
  id : Nat
  tags : List String
  title : Option String
  subtitle : Option String
  description : String
  date : Option String
  icon : String
  color : String
deriving DecidableEq, Repr

/-- `formatVitalSigns(vital)`. -/
def formatVitalSigns (item : RawItem) : String :=
  let signs : List String :=
    (if truthyNum item.systolic_bp && truthyNum item.diastolic_bp then
      ["BP: " ++ jsInterp (item.systolic_bp.map toString) ++ "/" ++
        jsInterp (item.diastolic_bp.map toString)]
     else []) ++
    (if truthyNum item.heart_rate then
      ["HR: " ++ jsInterp (item.heart_rate.map toString)] else []) ++
    (if truthyNum item.temperature then
      ["Temp: " ++ jsInterp (item.temperature.map toString) ++ "°F"] else []) ++
    (if truthyNum item.weight then
      ["Weight: " ++ jsInterp (item.weight.map toString) ++ " lbs"] else [])
  if signs.length > 0 then String.intercalate ", " signs else "Vital Signs"

/-- `formatResultItem(recordType, item)`: `none` is the `default:` arm, which
logs a warning and returns `null`. -/
def formatResultItem (recordType : String) (item : RawItem) : Option FormattedItem :=
  let mk := fun (title subtitle : Option String) (description : String)
      (date : Option String) (icon color : String) =>
    some { itemType := item.itemType, id := item.id, tags := item.tags,
           title := title, subtitle := subtitle, description := description,
           date := date, icon := icon, color := color }
  if recordType = "medications" then
    mk item.medication_name
      (if truthyStr item.dosage then
        some (jsInterp item.dosage ++ " - " ++ jsInterp item.status)
       else item.status)
      (jsInterp (jsOrS item.notes (some "")))
      (jsOrS item.start_date item.created_at) "IconPill" "green"
  else if recordType = "conditions" then
    mk (jsOrS item.condition_name item.diagnosis) item.status
      (jsInterp (jsOrS item.diagnosis (jsOrS item.notes (some ""))))
      (jsOrS item.diagnosed_date item.created_at) "IconStethoscope" "blue"
  else if recordType = "lab_results" then
    mk item.test_name
      (if truthyStr item.result then some ("Result: " ++ jsInterp item.result)
       else item.status)
      (jsInterp (jsOrS item.notes (some "")))
      (jsOrS item.test_date item.created_at) "IconFlask" "indigo"
  else if recordType = "procedures" then
    mk item.name item.status
      (jsInterp (jsOrS item.description (jsOrS item.notes (some ""))))
      (jsOrS item.procedure_date item.created_at) "IconMedicalCross" "violet"
  else if recordType = "immunizations" then
    mk item.vaccine_name
      (if truthyNum item.dose_number then
        some ("Dose " ++ jsInterp (item.dose_number.map toString) ++ " - " ++
          jsInterp item.status)
       else item.status)
      (jsInterp (jsOrS item.notes (some "")))
      (jsOrS item.administered_date item.created_at) "IconVaccine" "orange"
  else if recordType = "treatments" then
    mk item.treatment_name
      (if truthyStr item.treatment_type then
        some (jsInterp item.treatment_type ++ " - " ++ jsInterp item.status)
       else item.status)
      (jsInterp (jsOrS item.description (jsOrS item.notes (some ""))))
      (jsOrS item.start_date item.created_at) "IconHeartbeat" "pink"
  else if recordType = "encounters" then
    mk (jsOrS item.visit_type item.reason) item.reason
      (jsInterp (jsOrS item.chief_complaint (jsOrS item.notes (some ""))))
      (jsOrS item.encounter_date item.created_at) "IconCalendarEvent" "teal"
  else if recordType = "allergies" then
    mk item.allergen
      (some (jsInterp item.severity ++ " - " ++ jsInterp item.reaction))
      (jsInterp (jsOrS item.notes (some "")))
      (jsOrS item.identified_date item.created_at) "IconAlertTriangle" "red"
  else if recordType = "vitals" then
    mk (some (formatVitalSigns item)) (jsOrS item.notes (some ""))
      (jsInterp (jsOrS item.notes (some "")))
      (jsOrS item.recorded_date item.created_at) "IconHeartbeat" "cyan"
  else
    none

/-- `formatSearchResults(results)`: walk the per-type groups, skip empty item
lists, and push every non-null formatted item in order. -/
def formatSearchResults (results : List (String × List RawItem)) :
    List FormattedItem :=
  results.foldl
    (fun acc group =>
      if group.2.length = 0 then acc
      else acc ++ group.2.filterMap (formatResultItem group.1))
    []

/-- `{ skip: 0, limit: 20, hasMore: false }` and friends. -/
structure Pagination where
  skip : Int
  limit : Int
  hasMore : Bool
deriving DecidableEq, Repr

/-- The body the backend returns for `GET /search/` (`searchData`), with every
field optional as the code defends with `?.` and `||`. -/
structure SearchData where
  results : Option (List (String × List RawItem)) := none
  total_count : Option Nat := none
  pagination : Option Pagination := none
deriving DecidableEq, Repr

/-- What `searchWithPagination` resolves to. The falsy-patient and catch
branches return an object without a `resultsByType` key (`none` here). -/
structure SearchOutcome where
  results : List FormattedItem
  totalCount : Nat
  pagination : Pagination
  resultsByType : Option (List (String × List RawItem))
deriving DecidableEq, Repr

/-- The empty result object of the falsy-patient and catch branches. -/
def emptySearchOutcome : SearchOutcome :=
  { results := [], totalCount := 0,
    pagination := { skip := 0, limit := 20, hasMore := false },
    resultsByType := none }

/-- `if (!patientId)`: `undefined`, `null` and `0` are falsy. -/
def patientIdFalsy : Option Int → Bool
  | none => true
  | some n => n = 0

/-- The query-parameter object built before the GET (kept for fidelity; the
network outcome itself is the `getOutcome` argument below). -/
def searchParams (query : String) (patientId : Option Int)
    (paginationOptions : List (String × String)) : List (String × String) :=
  paginationOptions ++
    (if truthyStr (some query) && (jsTrim query).length > 0 then [("q", query)] else []) ++
    (match patientId with
     | some n => if n ≠ 0 then [("patient_id", toString n)] else []
     | none => [])

/-- `SearchService.searchWithPagination(query, patientId, paginationOptions)`.
`getOutcome` is how `await apiService.get('/search/', { params })` settles:
`.ok` with the (possibly null) parsed body, or `.error` with the thrown
message. Everything after the early return sits inside `try { ... } catch`,
and the catch returns the empty result object. -/
def searchWithPagination (query : String) (patientId : Option Int)
    (paginationOptions : List (String × String))
    (getOutcome : Except String (Option SearchData)) : SearchOutcome :=
  if patientIdFalsy patientId then
    emptySearchOutcome
  else
    match getOutcome with
    | .error _ => emptySearchOutcome
    | .ok searchData =>
      { results := formatSearchResults ((searchData.bind (·.results)).getD [])
        totalCount := (searchData.bind (·.total_count)).getD 0
        pagination :=
          (searchData.bind (·.pagination)).getD
            { skip := 0, limit := 20, hasMore := false }
        resultsByType := some ((searchData.bind (·.results)).getD []) }

end SearchSvc

namespace SearchPage

/-! Embedding of the client-side pipeline of
`frontend/src/pages/SearchResults.jsx`: the `allFilteredResults` memo
(lines 432-512) and the `mergedResults` page slice (lines 515-518).

A displayed row keeps the fields the pipeline reads: `title` and `subtitle`
(query filtering and title sort), `date` (date filtering and date sort, with
the ISO date string abstracted to its timestamp), and identity/source. The
presentation-only fields the memo also copies (icon component, color,
translated type label, route, tags) do not influence filtering, sorting or
pagination and are omitted. -/

/-- One row of the results table. `source` is the `_source` discriminator. -/
structure ResultRow where
  rowType : String
  id : Nat
  title : Option String
  subtitle : Option String
  date : Option Int
  source : String
deriving DecidableEq, Repr

/-- One element of the `results` state (a formatted text-search item), in the
fields the memo reads. -/
structure TextItem where
  itemType : String
  id : Nat
  title : Option String
  subtitle : Option String
  date : Option Int
deriving DecidableEq, Repr

/-- The `results.map(result => ({ ... _source: 'text' }))` step. -/
def toTextRow (result : TextItem) : ResultRow :=
  { rowType := result.itemType, id := result.id, title := result.title,
    subtitle := result.subtitle, date := result.date, source := "text" }

/-- `r.title?.toLowerCase().includes(q)` (optional chaining: an undefined
title yields undefined, which is falsy). -/
def queryIncludes (q : String) (x : Option String) : Bool :=
  match x with
  | none => false
  | some s => jsIncludes (jsToLower s) q

/-- The date-range predicate of the client-side date filter: rows without a
date are dropped; otherwise each set endpoint must not be crossed. -/
def dateInRange (dateRange : Option Int × Option Int) (r : ResultRow) : Bool :=
  match r.date with
  | none => false
  | some d =>
    (match dateRange.1 with | some lo => decide (lo ≤ d) | none => true) &&
    (match dateRange.2 with | some hi => decide (d ≤ hi) | none => true)

/-- `(a.title || '').toLowerCase()`. -/
def lowerOrEmpty (x : Option String) : String := jsToLower (x.getD "")

/-- `localeCompare`, modelled as the standard string comparison. -/
def strCompare (a b : String) : Int :=
  if charListLt a.data b.data then -1
  else if charListLt b.data a.data then 1
  else 0

/-- The comparator of the global sort, by `sortBy` key. Rows without a date
sort last under both date orders; unknown keys (e.g. `relevance`) compare
equal, so the stable sort keeps the incoming order. -/
def rowCmp (sortBy : String) (a b : ResultRow) : Int :=
  if sortBy = "date_desc" then
    match a.date, b.date with
    | none, none => 0
    | none, some _ => 1
    | some _, none => -1
    | some da, some db => db - da
  else if sortBy = "date_asc" then
    match a.date, b.date with
    | none, none => 0
    | none, some _ => 1
    | some _, none => -1
    | some da, some db => da - db
  else if sortBy = "title" then
    strCompare (lowerOrEmpty a.title) (lowerOrEmpty b.title)
  else if sortBy = "title_desc" then
    strCompare (lowerOrEmpty b.title) (lowerOrEmpty a.title)
  else 0

/-- `[...dateFiltered].sort(comparator)`: a stable sort placing `a` before `b`
when the comparator is non-positive. -/
def sortRows (sortBy : String) (l : List ResultRow) : List ResultRow :=
  l.insertionSort (fun a b => rowCmp sortBy a b ≤ 0)

/-- The `allFilteredResults` memo, translated clause by clause. `tagResults`
is the raw tag-search state (`null` initially); `flattenTagResults(null)`
is `[]`, and the flattened rows are the `tagRows` carried inside `some`. -/
def allFilteredResults (results : List TextItem) (tagResults : Option (List ResultRow))
    (selectedTags : List String) (query : String) (sortBy : String)
    (dateRange : Option Int × Option Int) : List ResultRow :=
  let textRows := results.map toTextRow
  let hasTagFilter := selectedTags.length > 0
  let tagRows := match tagResults with | none => [] | some rows => rows
  let merged :=
    if !hasTagFilter then
      textRows
    else if jsTrim query = "" then
      tagRows
    else
      let q := jsToLower (jsTrim query)
      tagRows.filter (fun r => queryIncludes q r.title || queryIncludes q r.subtitle)
  let dateFiltered :=
    if dateRange.1.isSome || dateRange.2.isSome then
      merged.filter (dateInRange dateRange)
    else merged
  sortRows sortBy dateFiltered

/-- `allFilteredResults.slice(start, start + pageSize)` with
`start = (currentPage - 1) * pageSize`. -/
def pageSlice (l : List ResultRow) (currentPage pageSize : Nat) : List ResultRow :=
  (l.drop ((currentPage - 1) * pageSize)).take pageSize

/-- The `mergedResults` memo: the displayed page of rows. -/
def mergedResults (results : List TextItem) (tagResults : Option (List ResultRow))
    (selectedTags : List String) (query : String) (sortBy : String)
    (dateRange : Option Int × Option Int) (currentPage pageSize : Nat) :
    List ResultRow :=
  pageSlice
    (allFilteredResults results tagResults selectedTags query sortBy dateRange)
    currentPage pageSize

/-- The merge step as the code actually selects rows: text rows alone when no
tag is selected; tag rows alone when tags are selected and the query is
blank; tag rows filtered by the query when both are active. -/
def mergeStage (textRows tagRows : List ResultRow) (selectedTags : List String)
    (query : String) : List ResultRow :=
  if selectedTags.isEmpty then textRows
  else if jsTrim query = "" then tagRows
  else
    tagRows.filter (fun r =>
      queryIncludes (jsToLower (jsTrim query)) r.title ||
      queryIncludes (jsToLower (jsTrim query)) r.subtitle)

/-- The date-filter stage, applied only when an endpoint is set. -/
def applyDateFilter (dateRange : Option Int × Option Int) (l : List ResultRow) :
    List ResultRow :=
  if dateRange.1.isSome || dateRange.2.isSome then l.filter (dateInRange dateRange)
  else l

/-- The pipeline exactly as the claim words it: concatenate both result sets,
then date-filter, then sort, then slice the page. -/
def claimedDisplayedRows (results : List TextItem) (tagResults : Option (List ResultRow))
    (sortBy : String) (dateRange : Option Int × Option Int)
    (currentPage pageSize : Nat) : List ResultRow :=
  pageSlice
    (sortRows sortBy
      (applyDateFilter dateRange (results.map toTextRow ++ tagResults.getD [])))
    currentPage pageSize

end SearchPage

/-! ## Theorems -/

section SearchHistoryProofs

open SearchHistory

/-- Helper: an indexed map that does not change the dedupe key of any entry
leaves the key list unchanged. -/
theorem map_entryKey_mapWithIdx
    (f : Nat → SearchHistoryEntry → SearchHistoryEntry)
    (hf : ∀ i e, entryKey (f i e) = entryKey e) :
    ∀ (n : Nat) (l : List SearchHistoryEntry),
      (mapWithIdx f n l).map entryKey = l.map entryKey := by
  intro n l
  induction l generalizing n with
  | nil => rfl
  | cons a as ih => simp [mapWithIdx, hf, ih]

/-- Helper: the timestamp sort leaves a permutation of its input. -/
theorem sortEntries_perm (l : List SearchHistoryEntry) :
    (sortEntriesByTimestampDesc l).Perm l :=
  List.perm_insertionSort _ l

/-- Helper: the timestamp sort sorts newest first. -/
theorem sortEntries_sorted (l : List SearchHistoryEntry) :
    sortedNewestFirst (sortEntriesByTimestampDesc l) := by
  haveI : IsTotal SearchHistoryEntry (fun a b => b.timestamp ≤ a.timestamp) :=
    ⟨fun a b => le_total b.timestamp a.timestamp⟩
  haveI : IsTrans SearchHistoryEntry (fun a b => b.timestamp ≤ a.timestamp) :=
    ⟨fun _ _ _ hab hbc => le_trans hbc hab⟩
  exact List.sorted_insertionSort _ l

/-- Helper: sorting then capping any list with distinct dedupe keys yields an
invariant-satisfying state. -/
theorem sortTake_invariant (u : List SearchHistoryEntry)
    (hk : dedupeKeysDistinct u) :
    historyInvariant ((sortEntriesByTimestampDesc u).take MAX_ENTRIES) := by
  refine ⟨List.length_take_le _ _,
    (sortEntries_sorted u).sublist (List.take_sublist _ _), ?_⟩
  unfold dedupeKeysDistinct
  refine (((List.take_sublist _ _).map entryKey)).nodup ?_
  exact (((sortEntries_perm u).map entryKey)).nodup_iff.mpr hk

/-- Helper: `addEntry` preserves the history invariant. -/
theorem addEntry_invariant (q : String) (tags : List String) (mm : String)
    (now : Int) (l : List SearchHistoryEntry) (h : historyInvariant l) :
    historyInvariant (addEntry q tags mm now l) := by
  unfold addEntry
  simp only
  split
  · exact h
  · apply sortTake_invariant
    cases hfind : l.findIdx?
        (fun entry => buildDedupeKey entry.query entry.tags ==
          buildDedupeKey (jsTrim q) tags) with
    | some i =>
      dsimp only
      unfold dedupeKeysDistinct
      rw [map_entryKey_mapWithIdx _ (by
        intro idx entry
        by_cases hi : (idx == i) = true <;> simp [hi, entryKey])]
      exact h.2.2
    | none =>
      dsimp only
      unfold dedupeKeysDistinct
      rw [List.map_cons]
      refine List.Nodup.cons ?_ h.2.2
      intro hmem
      rcases List.mem_map.mp hmem with ⟨e, hel, hke⟩
      have hne := (List.findIdx?_eq_none_iff.mp hfind) e hel
      rw [beq_eq_false_iff_ne] at hne
      exact hne (by simpa [entryKey] using hke)

/-- Helper: `removeEntry` preserves the history invariant. -/
theorem removeEntry_invariant (i : Nat) (l : List SearchHistoryEntry)
    (h : historyInvariant l) : historyInvariant (removeEntry i l) := by
  have hsub : (removeEntry i l).Sublist l := List.eraseIdx_sublist l i
  exact ⟨le_trans hsub.length_le h.1, h.2.1.sublist hsub,
    (hsub.map entryKey).nodup h.2.2⟩

/-- Helper: the empty history satisfies the invariant. -/
theorem historyInvariant_nil : historyInvariant ([] : List SearchHistoryEntry) :=
  ⟨by simp [MAX_ENTRIES], List.Pairwise.nil, List.Pairwise.nil⟩

/-- Helper: every operation preserves the invariant. -/
theorem applyOp_invariant (op : HistoryOp) (l : List SearchHistoryEntry)
    (h : historyInvariant l) : historyInvariant (applyOp op l) := by
  cases op with
  | add q tags mm now => exact addEntry_invariant q tags mm now l h
  | remove i => exact removeEntry_invariant i l h
  | clear => exact historyInvariant_nil

/-- Helper: invariant after any operation sequence from any invariant state. -/
theorem applyOps_invariant (ops : List HistoryOp) :
    ∀ (l : List SearchHistoryEntry), historyInvariant l →
      historyInvariant (applyOps ops l) := by
  induction ops with
  | nil => exact fun l h => h
  | cons op rest ih =>
    intro l h
    exact ih _ (applyOp_invariant op l h)

end SearchHistoryProofs

/-- C9: after every `addEntry`, `removeEntry` and `clearHistory` operation
(starting from the empty history), the list holds at most 20 entries, is
sorted newest-first, and has at most one entry per deduplication key; and
`addEntry` with an empty trimmed query and no tags leaves the list
unchanged. -/
theorem useSearchHistory_state_invariant :
    (∀ ops : List SearchHistory.HistoryOp,
      SearchHistory.historyInvariant (SearchHistory.applyOps ops [])) ∧
    (∀ (q : String) (tags : List String) (mm : String) (now : Int)
        (l : List SearchHistory.SearchHistoryEntry),
      jsTrim q = "" → tags = [] → SearchHistory.addEntry q tags mm now l = l) := by
  constructor
  · exact fun ops => applyOps_invariant ops [] historyInvariant_nil
  · intro q tags mm now l hq htags
    unfold SearchHistory.addEntry
    rw [if_pos (by simp [hq, htags])]

/-- Witness for C9 at concrete inputs: a blank query with no tags is a
no-op on a concrete one-entry history. -/
theorem useSearchHistory_state_invariant_witness :
    SearchHistory.addEntry "  " [] "any" 5
      [{ query := "aspirin", tags := [], matchMode := "any", timestamp := 1 }] =
      [{ query := "aspirin", tags := [], matchMode := "any", timestamp := 1 }] :=
  useSearchHistory_state_invariant.2 "  " [] "any" 5
    [{ query := "aspirin", tags := [], matchMode := "any", timestamp := 1 }]
    (by decide) rfl

section RequestQueueProofs

open RequestQueue

/-- Helper: the constructor state satisfies the queue invariant. -/
theorem queueInv_init : QueueInv initialState := by
  refine ⟨rfl, ?_, rfl⟩
  simp [initialState]

/-- Helper: every step of the queue machine preserves the invariant. -/
theorem queueInv_step {s t : ServiceState} (h : QueueInv s) (hst : Step s t) :
    QueueInv t := by
  obtain ⟨ha, hp, harr⟩ := h
  cases hst with
  | enqueueGuarded i s hguard =>
    exact ⟨ha, hp, by simp [harr]⟩
  | enqueueEnter i s hp' ha' =>
    have hidle : s.ctrl = .idle := by
      by_contra hne
      rw [hp.mpr hne] at hp'
      exact absurd hp' (by simp)
    refine ⟨?_, by simp, by simp [harr]⟩
    simpa [hidle, ctrlActive] using ha
  | timerEnter s hc hp' ha' =>
    refine ⟨?_, by simp, harr⟩
    simpa [hc, ctrlActive] using ha
  | dequeueStart s i rest hc hq ha' =>
    refine ⟨?_, by simp [hp.mpr (by rw [hc]; simp)], ?_⟩
    · simp only [ctrlActive]
      rw [ha, hc]
      rfl
    · rw [harr, hq]
      simp
  | loopExit s hc hdone =>
    refine ⟨?_, by simp, harr⟩
    simpa [hc, ctrlActive] using ha
  | requestSettles s i hc =>
    refine ⟨?_, by simp [hp.mpr (by rw [hc]; simp)], harr⟩
    rw [ha, hc]
    rfl
  | delayDone s hc =>
    refine ⟨?_, by simp [hp.mpr (by rw [hc]; simp)], harr⟩
    simpa [hc, ctrlActive] using ha

/-- Helper: the invariant holds in every reachable state. -/
theorem queueInv_reachable {s : ServiceState} (h : Reachable s) : QueueInv s := by
  induction h with
  | init => exact queueInv_init
  | step _ hst ih => exact queueInv_step ih hst

end RequestQueueProofs

/-- C1: in every state the queue machine of `BaseApiService.queueRequest` /
`processQueue` can reach, the number of simultaneously in-flight requests
(`activeRequests`) never exceeds `maxConcurrentRequests = 3`. (The loop in
fact awaits each request before shifting the next, so the counter never
exceeds 1.) -/
theorem baseApiService_activeRequests_bounded (s : RequestQueue.ServiceState)
    (h : RequestQueue.Reachable s) :
    s.activeRequests ≤ RequestQueue.maxConcurrentRequests := by
  rw [(queueInv_reachable h).1]
  cases hc : s.ctrl <;> simp [RequestQueue.ctrlActive, RequestQueue.maxConcurrentRequests]

/-- Witness for C1: a concrete reachable state with one request in flight. -/
theorem baseApiService_activeRequests_bounded_witness :
    ({ requestQueue := [], activeRequests := 1, isProcessingQueue := true,
       ctrl := .awaitingRequest 0, started := [0], arrived := [0] } :
      RequestQueue.ServiceState).activeRequests ≤
      RequestQueue.maxConcurrentRequests :=
  baseApiService_activeRequests_bounded _
    (RequestQueue.Reachable.step
      (RequestQueue.Reachable.step RequestQueue.Reachable.init
        (RequestQueue.Step.enqueueEnter 0 RequestQueue.initialState rfl (by decide)))
      (RequestQueue.Step.dequeueStart _ 0 [] rfl rfl (by decide)))

/-- C6: in every reachable state of the queue machine, the requests started
so far, in start order, followed by the still-queued requests in queue
order, are exactly the requests in arrival (enqueue) order — the queue is
dequeued and started strictly FIFO. -/
theorem baseApiService_queue_fifo (s : RequestQueue.ServiceState)
    (h : RequestQueue.Reachable s) :
    s.started ++ s.requestQueue = s.arrived :=
  ((queueInv_reachable h).2.2).symm

/-- Witness for C6: a concrete reachable state where one of two enqueued
requests has been started and the other is still queued. -/
theorem baseApiService_queue_fifo_witness :
    ({ requestQueue := [8], activeRequests := 1, isProcessingQueue := true,
       ctrl := .awaitingRequest 7, started := [7], arrived := [7, 8] } :
      RequestQueue.ServiceState).started ++
      ({ requestQueue := [8], activeRequests := 1, isProcessingQueue := true,
         ctrl := .awaitingRequest 7, started := [7], arrived := [7, 8] } :
        RequestQueue.ServiceState).requestQueue =
      ({ requestQueue := [8], activeRequests := 1, isProcessingQueue := true,
         ctrl := .awaitingRequest 7, started := [7], arrived := [7, 8] } :
        RequestQueue.ServiceState).arrived :=
  baseApiService_queue_fifo _
    (RequestQueue.Reachable.step
      (RequestQueue.Reachable.step
        (RequestQueue.Reachable.step RequestQueue.Reachable.init
          (RequestQueue.Step.enqueueEnter 7 RequestQueue.initialState rfl (by decide)))
        (RequestQueue.Step.dequeueStart _ 7 [] rfl rfl (by decide)))
      (RequestQueue.Step.enqueueGuarded 8 _ (Or.inl rfl)))

/-- C4: for a 401 response, `handleAuthError` redirects to `/login` exactly
when the stored token is absent, undecodable, or expired; a present,
decodable, unexpired token yields no redirect. -/
theorem handleAuthError_redirects_iff_token_invalid (r : BaseApi.Response)
    (tok : BaseApi.StoredToken) (now : Int) (h401 : r.status = 401) :
    BaseApi.handleAuthError r tok now = true ↔
      (tok = .absent ∨ tok = .undecodable ∨
        ∃ exp, tok = .decoded exp ∧ exp < now) := by
  unfold BaseApi.handleAuthError
  rw [if_pos h401]
  cases tok with
  | absent => split <;> simp
  | undecodable => split <;> simp
  | decoded exp => by_cases hexp : exp < now <;> split <;> simp [hexp]

/-- Witness for C4: an expired token on a 401 triggers the redirect. -/
theorem handleAuthError_redirects_iff_token_invalid_witness :
    BaseApi.handleAuthError
      { ok := false, status := 401, url := "https://app/api/v1/patients/me",
        retryAfterHeader := none } (.decoded 10) 20 = true :=
  (handleAuthError_redirects_iff_token_invalid _ _ _ rfl).mpr
    (Or.inr (Or.inr ⟨10, rfl, by decide⟩))

/-- Counterexample to C2: a transient 401 (valid, unexpired token) on a
non-admin endpoint is not retried at all — `handleResponse` throws the
extracted error immediately. -/
theorem transient401_not_retried_counterexample :
    BaseApi.handleResponse
      { ok := false, status := 401, url := "https://app/api/v1/patients/me",
        retryAfterHeader := none }
      (.decoded 1000) 0 "https://app" "/api/v1" 0 = .extractedError := by
  decide

/-- C2 (amended): a 401 carrying a valid, unexpired token is retried exactly
when the URL contains `/admin/` and the current call's retry count is below
`maxRetries`; otherwise the extracted error surfaces with no retry. The
retry re-issues the request through `get`, whose response is handled with
the retry count reset to `0`, so as long as every following response is
again an admin transient 401 the chain keeps retrying and never surfaces an
error — the retry is not bounded to happen exactly once. -/
theorem transient401_retried_only_for_admin (r : BaseApi.Response)
    (exp now : Int) (baseURL basePath : String) (retryCount : Nat)
    (hok : r.ok = false) (h401 : r.status = 401) (hvalid : now ≤ exp) :
    (BaseApi.handleResponse r (.decoded exp) now baseURL basePath retryCount =
      if jsIncludes r.url "/admin/" && decide (retryCount < BaseApi.maxRetries) then
        .retriedGet (jsReplaceOnce r.url (baseURL ++ basePath))
      else .extractedError) ∧
    (∀ rs : List BaseApi.Response,
      (∀ r2 ∈ rs, r2.ok = false ∧ r2.status = 401 ∧
        jsIncludes r2.url "/admin/" = true) →
      BaseApi.retryChain (.decoded exp) now baseURL basePath rs = none) := by
  have hnoredir : ∀ r2 : BaseApi.Response,
      BaseApi.handleAuthError r2 (.decoded exp) now = false := by
    intro r2
    unfold BaseApi.handleAuthError
    have hlt : ¬ exp < now := not_lt.mpr hvalid
    split
    · split <;> simp [hlt]
    · split <;> rfl
  constructor
  · by_cases h1 : jsIncludes r.url "/admin/" = true <;>
      by_cases h2 : retryCount < BaseApi.maxRetries <;>
      unfold BaseApi.handleResponse <;>
      simp [hok, h401, hnoredir r, h1, h2]
  · intro rs hall
    induction rs with
    | nil => rfl
    | cons r2 rest ih =>
      obtain ⟨hok2, h4012, hadm2⟩ := hall r2 (by simp)
      have hthis : BaseApi.handleResponse r2 (.decoded exp) now baseURL basePath 0 =
          .retriedGet (jsReplaceOnce r2.url (baseURL ++ basePath)) := by
        unfold BaseApi.handleResponse
        rw [if_pos hok2, if_neg (by rw [hnoredir r2]; simp),
          if_pos (by simp [h4012, hadm2, BaseApi.maxRetries])]
      unfold BaseApi.retryChain
      rw [hthis]
      exact ih (fun x hx => hall x (by simp [hx]))

/-- Witness for C2 (amended): a concrete admin transient 401 is retried as a
GET of the stripped endpoint. -/
theorem transient401_retried_only_for_admin_witness :
    BaseApi.handleResponse
      { ok := false, status := 401, url := "https://app/api/v1/admin/users",
        retryAfterHeader := none }
      (.decoded 1000) 0 "https://app" "/api/v1" 0 = .retriedGet "/admin/users" := by
  rw [(transient401_retried_only_for_admin _ 1000 0 _ _ 0 rfl rfl (by decide)).1]
  decide

/-- Counterexample to C5: a 429 whose `Retry-After` header is present but
empty also produces the 60-second message, while the claim's reading of N
(header value whenever present) would produce a different message. -/
theorem rateLimit_emptyHeader_counterexample :
    BaseApi.handleResponse
      { ok := false, status := 429, url := "https://app/api/v1/search/",
        retryAfterHeader := some "" } .absent 0 "https://app" "/api/v1" 0 =
      .rateLimitError (BaseApi.rateLimitMessage "60") ∧
    BaseApi.rateLimitMessage "60" ≠
      BaseApi.rateLimitMessage (BaseApi.claimedRetryAfter (some "")) := by
  exact ⟨by decide, by decide⟩

/-- C5 (amended): every 429 handled by `handleResponse` raises the
rate-limit error telling the user to wait N seconds, where N is the
`Retry-After` header value when that header is present and non-empty, and
60 when it is absent or empty. -/
theorem rateLimit_429_message (r : BaseApi.Response) (tok : BaseApi.StoredToken)
    (now : Int) (baseURL basePath : String) (retryCount : Nat)
    (hok : r.ok = false) (h429 : r.status = 429) :
    BaseApi.handleResponse r tok now baseURL basePath retryCount =
      .rateLimitError (BaseApi.rateLimitMessage
        (match r.retryAfterHeader with
         | none => "60"
         | some v => if v = "" then "60" else v)) := by
  unfold BaseApi.handleResponse BaseApi.retryAfterValue
  simp [hok, h429, BaseApi.handleAuthError]

/-- Witness for C5 (amended): a concrete 429 with `Retry-After: 30`. -/
theorem rateLimit_429_message_witness :
    BaseApi.handleResponse
      { ok := false, status := 429, url := "https://app/api/v1/search/",
        retryAfterHeader := some "30" } .absent 5 "https://app" "/api/v1" 1 =
      .rateLimitError (BaseApi.rateLimitMessage "30") := by
  rw [rateLimit_429_message _ _ _ _ _ _ rfl rfl]
  decide

/-- Counterexample to C7: `BaseApiService.post` declares no options
parameter, so a caller-supplied abort signal never reaches its `fetch`
call — the fetch is issued with no signal. -/
theorem basePost_drops_signal_counterexample :
    (BaseApi.callVerb .POST "https://app" "/api/v1" "/medications/"
      { params := [], signal := some 7 }).signal = none ∧
    (some 7 : Option BaseApi.Signal) ≠ none := by
  exact ⟨rfl, by decide⟩

/-- C7 (amended): all five `ApiService` verb methods pass the options —
including the abort signal — unchanged through `request` to `fetch`, and so
does `BaseApiService.get`; `BaseApiService`'s `post`, `put`, `patch` and
`delete` accept no options and always invoke `fetch` without a signal. -/
theorem abortSignal_passthrough (v : BaseApi.Verb)
    (baseURL basePath endpoint : String) (options : BaseApi.RequestOptions) :
    ((ApiSvc.callVerb v baseURL endpoint options).signal = options.signal) ∧
    ((BaseApi.get baseURL basePath endpoint options).signal = options.signal) ∧
    ((BaseApi.callVerb v baseURL basePath endpoint options).signal =
      match v with
      | .GET => options.signal
      | _ => none) := by
  refine ⟨?_, rfl, ?_⟩ <;> cases v <;> rfl

section CreateMedicationProofs

open ApiSvc

/-- Helper: reading a key that is not among an object's keys yields
`undefined`. -/
theorem lookupProp_not_mem (key : String) (l : List (String × JSValue))
    (h : key ∉ l.map Prod.fst) : lookupProp l key = .vUndefined := by
  induction l with
  | nil => rfl
  | cons kv t ih =>
    rcases kv with ⟨k, v⟩
    simp only [List.map_cons, List.mem_cons, not_or] at h
    have hkc : (key == k) = false := by simpa using h.1
    unfold lookupProp
    simp only [List.lookup, hkc]
    exact ih h.2

/-- Helper: a value the clean-up filter drops is falsy. -/
theorem truthy_eq_false_of_drop (v : JSValue)
    (h : keepInCleanPayload v = false) : truthy v = false := by
  cases v <;> simp_all [keepInCleanPayload, truthy]

/-- Helper: for an object with distinct keys, the truthiness of a property
is unchanged by the clean-up filter (dropped values are falsy, and a missing
property reads as the falsy `undefined`). -/
theorem truthy_lookup_clean (key : String) (l : List (String × JSValue))
    (hnodup : (l.map Prod.fst).Nodup) :
    truthy (lookupProp (cleanMedicationPayload l) key) =
      truthy (lookupProp l key) := by
  induction l with
  | nil => rfl
  | cons kv t ih =>
    rcases kv with ⟨k, v⟩
    rw [List.map_cons, List.nodup_cons] at hnodup
    obtain ⟨hknot, ht⟩ := hnodup
    by_cases hkeep : keepInCleanPayload v = true
    · have hfil : cleanMedicationPayload ((k, v) :: t) =
          (k, v) :: cleanMedicationPayload t := by
        simp [cleanMedicationPayload, List.filter_cons, hkeep]
      rw [hfil]
      cases hkc : (key == k) with
      | true =>
        have hl : lookupProp ((k, v) :: cleanMedicationPayload t) key = v := by
          unfold lookupProp
          simp [List.lookup, hkc]
        have hr : lookupProp ((k, v) :: t) key = v := by
          unfold lookupProp
          simp [List.lookup, hkc]
        rw [hl, hr]
      | false =>
        have hl : lookupProp ((k, v) :: cleanMedicationPayload t) key =
            lookupProp (cleanMedicationPayload t) key := by
          unfold lookupProp
          simp [List.lookup, hkc]
        have hr : lookupProp ((k, v) :: t) key = lookupProp t key := by
          unfold lookupProp
          simp [List.lookup, hkc]
        rw [hl, hr]
        exact ih ht
    · have hfil : cleanMedicationPayload ((k, v) :: t) =
          cleanMedicationPayload t := by
        simp [cleanMedicationPayload, List.filter_cons, hkeep]
      rw [hfil]
      have hvf : truthy v = false :=
        truthy_eq_false_of_drop v (by simpa using hkeep)
      cases hkc : (key == k) with
      | true =>
        have hkeq : key = k := by simpa using hkc
        have hnone : lookupProp (cleanMedicationPayload t) key = .vUndefined := by
          apply lookupProp_not_mem
          intro hmem
          apply hknot
          rcases List.mem_map.mp hmem with ⟨⟨k2, v2⟩, hin, hfst⟩
          rw [← hkeq]
          exact List.mem_map.mpr ⟨⟨k2, v2⟩, (List.mem_filter.mp hin).1, hfst⟩
        have hr : lookupProp ((k, v) :: t) key = v := by
          unfold lookupProp
          simp [List.lookup, hkc]
        rw [hnone, hr, hvf]
        rfl
      | false =>
        have hr : lookupProp ((k, v) :: t) key = lookupProp t key := by
          unfold lookupProp
          simp [List.lookup, hkc]
        rw [hr]
        exact ih ht

end CreateMedicationProofs

/-- Counterexample to C10: `medication_name: 0` is neither `''` nor `null`
nor `undefined`, yet `createMedication` still throws, because the guard
tests JavaScript truthiness (`!cleanPayload.medication_name`), not only
those three values. -/
theorem createMedication_zero_name_counterexample :
    ApiSvc.createMedication [("medication_name", ApiSvc.JSValue.vNum 0)] =
      .error "Medication name is required" ∧
    ApiSvc.lookupProp [("medication_name", ApiSvc.JSValue.vNum 0)]
      "medication_name" ≠ .vStr "" ∧
    ApiSvc.lookupProp [("medication_name", ApiSvc.JSValue.vNum 0)]
      "medication_name" ≠ .vNull ∧
    ApiSvc.lookupProp [("medication_name", ApiSvc.JSValue.vNum 0)]
      "medication_name" ≠ .vUndefined := by
  refine ⟨rfl, by decide, by decide, by decide⟩

/-- C10 (amended): `createMedication` throws `'Medication name is required'`
— performing no network request — exactly when the `medication_name` value
of the supplied data is falsy (`''`, `null`, `undefined`, `0`, `false` or
`NaN`, including a missing key); otherwise it posts exactly the keys of the
input whose values are neither `''` nor `null` nor `undefined`. -/
theorem createMedication_falsy_guard (medicationData : List (String × ApiSvc.JSValue))
    (hnodup : (medicationData.map Prod.fst).Nodup) :
    (ApiSvc.createMedication medicationData = .error "Medication name is required" ↔
      ApiSvc.truthy (ApiSvc.lookupProp medicationData "medication_name") = false) ∧
    (∀ payload, ApiSvc.createMedication medicationData = .ok payload →
      payload = medicationData.filter
        (fun kv => ApiSvc.keepInCleanPayload kv.2)) := by
  have hkey := truthy_lookup_clean "medication_name" medicationData hnodup
  unfold ApiSvc.createMedication
  constructor
  · rw [← hkey]
    by_cases h : ApiSvc.truthy
        (ApiSvc.lookupProp (ApiSvc.cleanMedicationPayload medicationData)
          "medication_name") = true
    · simp [h]
    · simp [h]
  · intro payload hp
    by_cases h : ApiSvc.truthy
        (ApiSvc.lookupProp (ApiSvc.cleanMedicationPayload medicationData)
          "medication_name") = true
    · rw [if_neg (by simp [h])] at hp
      injection hp with hp
      exact hp.symm
    · rw [if_pos (by simp only [Bool.not_eq_true] at h; simp [h])] at hp
      cases hp

/-- Witness for C10 (amended): a concrete medication payload with a truthy
name and an empty-string field posts exactly the non-empty keys. -/
theorem createMedication_falsy_guard_witness :
    ApiSvc.createMedication
      [("medication_name", ApiSvc.JSValue.vStr "Aspirin"),
       ("dosage", ApiSvc.JSValue.vStr "")] =
      .ok [("medication_name", ApiSvc.JSValue.vStr "Aspirin")] ∧
    [("medication_name", ApiSvc.JSValue.vStr "Aspirin")] =
      [("medication_name", ApiSvc.JSValue.vStr "Aspirin"),
       ("dosage", ApiSvc.JSValue.vStr "")].filter
        (fun kv => ApiSvc.keepInCleanPayload kv.2) :=
  ⟨rfl,
    (createMedication_falsy_guard
      [("medication_name", ApiSvc.JSValue.vStr "Aspirin"),
       ("dosage", ApiSvc.JSValue.vStr "")] (by decide)).2
      [("medication_name", ApiSvc.JSValue.vStr "Aspirin")] rfl⟩

/-- C8: `searchWithPagination` never rejects — it is a total function of the
GET outcome — and whenever the patient id is falsy or the GET fails, it
resolves to the empty result object with `results = []`, `totalCount = 0`
and `pagination = { skip: 0, limit: 20, hasMore: false }`. -/
theorem searchWithPagination_defaults (query : String) (patientId : Option Int)
    (paginationOptions : List (String × String))
    (getOutcome : Except String (Option SearchSvc.SearchData))
    (h : SearchSvc.patientIdFalsy patientId = true ∨ ∃ e, getOutcome = .error e) :
    SearchSvc.searchWithPagination query patientId paginationOptions getOutcome =
      SearchSvc.emptySearchOutcome := by
  unfold SearchSvc.searchWithPagination
  rcases h with hf | ⟨e, he⟩
  · rw [if_pos hf]
  · by_cases hf : SearchSvc.patientIdFalsy patientId = true
    · rw [if_pos hf]
    · rw [if_neg hf, he]

/-- Witness for C8: a missing patient id resolves to the empty result
object. -/
theorem searchWithPagination_defaults_witness :
    SearchSvc.searchWithPagination "aspirin" none [] (.ok none) =
      SearchSvc.emptySearchOutcome :=
  searchWithPagination_defaults "aspirin" none [] (.ok none) (Or.inl rfl)

/-- Counterexample to C3: with both a text query and a selected tag active,
the page shows only the tag rows filtered by the query — here the text
search returned a row but the display is empty, while the claim's
concatenate-then-filter-sort-paginate pipeline would display that row. -/
theorem searchResults_merge_counterexample :
    SearchPage.mergedResults
      [{ itemType := "medication", id := 1, title := some "alpha",
         subtitle := none, date := none }]
      (some []) ["cardiology"] "alpha" "relevance" (none, none) 1 10 = [] ∧
    SearchPage.claimedDisplayedRows
      [{ itemType := "medication", id := 1, title := some "alpha",
         subtitle := none, date := none }]
      (some []) "relevance" (none, none) 1 10 =
      [{ rowType := "medication", id := 1, title := some "alpha",
         subtitle := none, date := none, source := "text" }] := by
  exact ⟨by decide, by decide⟩

/-- C3 (amended): the rows the page displays equal the
`(page-1)*pageSize`-offset, `pageSize`-long slice of the array obtained by
selecting — text rows alone when no tag is selected, tag rows alone when
tags are selected and the query is blank, tag rows filtered by
title/subtitle match of the query when both are active — then applying the
client-side date filter, then the stable sort; the whole pipeline runs in
memory on the two response arrays. -/
theorem mergedResults_stage_decomposition (results : List SearchPage.TextItem)
    (tagResults : Option (List SearchPage.ResultRow))
    (selectedTags : List String) (query : String) (sortBy : String)
    (dateRange : Option Int × Option Int) (currentPage pageSize : Nat) :
    SearchPage.mergedResults results tagResults selectedTags query sortBy
        dateRange currentPage pageSize =
      SearchPage.pageSlice
        (SearchPage.sortRows sortBy
          (SearchPage.applyDateFilter dateRange
            (SearchPage.mergeStage (results.map SearchPage.toTextRow)
              (tagResults.getD []) selectedTags query)))
        currentPage pageSize := by
  unfold SearchPage.mergedResults SearchPage.allFilteredResults
    SearchPage.mergeStage SearchPage.applyDateFilter
  cases tagResults <;> cases selectedTags <;> simp
